import Mathlib

/-!
# FastPay — a formal model of the payment backend

This file is a shallow embedding of the FastPay repository: the ledger
domain model (`app/models.py`), the payment CRUD service (`app/main.py`),
the webhook ingestion router (`app/routers/webhooks.py`), the gateway
order router (`app/routers/payments.py`) and the gateway service wrapper
(`app/services/razorpay_service.py`), together with theorems settling the
specification's claims about them.

Monetary amounts (Python `Decimal` columns with 2 fraction digits, and the
floats crossing the CRUD API boundary) are modelled as exact rationals `ℚ`;
stored cent counts are integers `ℤ`.  Cryptographic digests (HMAC-SHA256)
are modelled by an abstract digest function passed as a parameter: every
theorem about signature checking holds for an arbitrary digest function,
so in particular for HMAC-SHA256.
-/

deriving instance DecidableEq for Except

namespace FastPay

/-! ## Ledger domain model — `app/models.py` -/

/-- Model of `Account.credit` (models.py:56-67): rejects a negative amount with a
validation error, otherwise atomically adds it to the stored balance and
returns the new balance. -/
def credit (balance amount : ℚ) : Except String ℚ :=
  if amount < 0 then Except.error "credit amount must be non-negative"
  else Except.ok (balance + amount)

/-- Model of `Account.debit` (models.py:69-87): rejects a negative amount, acquires
the row lock, re-checks the balance and raises insufficient funds when the
balance is below the amount; otherwise subtracts and returns the new
balance. -/
def debit (balance amount : ℚ) : Except String ℚ :=
  if amount < 0 then Except.error "debit amount must be non-negative"
  else if balance < amount then Except.error "insufficient funds"
  else Except.ok (balance - amount)

/-- One ledger operation applied to a single account. -/
inductive LedgerOp where
  | credit (amount : ℚ)
  | debit (amount : ℚ)
deriving DecidableEq, Repr

/-- The stored balance after one operation: a failed operation (validation
error or insufficient funds) aborts its transaction and leaves the balance
unchanged. -/
def applyOp (balance : ℚ) : LedgerOp → ℚ
  | LedgerOp.credit a =>
      match credit balance a with
      | Except.ok b => b
      | Except.error _ => balance
  | LedgerOp.debit a =>
      match debit balance a with
      | Except.ok b => b
      | Except.error _ => balance

/-- The stored balance after a sequence of credit/debit operations. -/
def runOps (balance : ℚ) : List LedgerOp → ℚ
  | [] => balance
  | op :: rest => runOps (applyOp balance op) rest

/-- Sum of the amounts of the successful credits along a run. -/
def creditSum (balance : ℚ) : List LedgerOp → ℚ
  | [] => 0
  | op :: rest =>
      (match op with
       | LedgerOp.credit a => if (credit balance a).isOk then a else 0
       | LedgerOp.debit _ => 0) + creditSum (applyOp balance op) rest

/-- Sum of the amounts of the successful debits along a run. -/
def debitSum (balance : ℚ) : List LedgerOp → ℚ
  | [] => 0
  | op :: rest =>
      (match op with
       | LedgerOp.credit _ => 0
       | LedgerOp.debit a => if (debit balance a).isOk then a else 0) + debitSum (applyOp balance op) rest

/-- The `PaymentTransaction.status` values (models.py:113-116). -/
inductive TxStatus where
  | PENDING
  | COMPLETED
  | FAILED
  | REFUNDED
deriving DecidableEq, Repr

/-- One refund row linked to a transaction: its amount and whether its
`processed_at` timestamp is set. -/
structure RefundRow where
  amount : ℚ
  processed : Bool
deriving DecidableEq, Repr

/-- The state `Refund.process` (models.py:183-223) reads and writes: the
owning transaction's amount and status, the balances of its
`from_account` (the payer, destination of the refund) and `to_account`
(the receiver, source of the refund) when those references are present,
the refund's own amount and processed flag, and the other refund rows
recorded against the same transaction. -/
structure RefundProcState where
  txAmount : ℚ
  txStatus : TxStatus
  fromBalance : Option ℚ
  toBalance : Option ℚ
  refAmount : ℚ
  refProcessed : Bool
  otherRefunds : List RefundRow
deriving DecidableEq, Repr

/-- Sum of the amounts of all refund rows recorded against the
transaction — the current one included, exactly as the query
`tx.refunds.all()` at models.py:218 returns them. -/
def totalRefundSum (s : RefundProcState) : ℚ :=
  s.refAmount + (s.otherRefunds.map RefundRow.amount).sum

/-- Sum of the amounts of the refunds whose processed timestamp is set
once the current refund has been processed (the current one included). -/
def processedSumAfter (s : RefundProcState) : ℚ :=
  s.refAmount + ((s.otherRefunds.filter RefundRow.processed).map RefundRow.amount).sum

/-- Model of `Refund.process` (models.py:183-223): only a `COMPLETED` transaction
may be refunded; both account references must be present; the refund
source (`to_account`) must have sufficient balance; funds move from
`to_account` back to `from_account`; the refund is stamped processed; and
the transaction flips to `REFUNDED` when the sum over `tx.refunds.all()`
reaches or exceeds the transaction amount. -/
def refundProcess (s : RefundProcState) : Except String RefundProcState :=
  if s.txStatus ≠ TxStatus.COMPLETED then
    Except.error "can only refund completed transactions"
  else
    match s.fromBalance with
    | none => Except.error "original payer account not available for refund"
    | some dstBal =>
      match s.toBalance with
      | none => Except.error "source account for refund not available"
      | some srcBal =>
        if srcBal < s.refAmount then
          Except.error "insufficient funds in source account to process refund"
        else
          let newStatus :=
            if s.txAmount ≤ totalRefundSum s then TxStatus.REFUNDED else s.txStatus
          Except.ok { s with
                      toBalance := some (srcBal - s.refAmount),
                      fromBalance := some (dstBal + s.refAmount),
                      refProcessed := true,
                      txStatus := newStatus }

/-! ## Payment CRUD service — `app/main.py` -/

/-- The `PaymentStatus` values (main.py:30-34). -/
inductive PayStatus where
  | pending
  | completed
  | failed
  | refunded
deriving DecidableEq, Repr

/-- Rendering of a status as the string stored in the database. -/
def PayStatus.toStr : PayStatus → String
  | PayStatus.pending => "pending"
  | PayStatus.completed => "completed"
  | PayStatus.failed => "failed"
  | PayStatus.refunded => "refunded"

/-- The `allowed_transitions` table of `update_payment` (main.py:203-208). -/
def allowed_transitions : PayStatus → List PayStatus
  | PayStatus.pending => [PayStatus.completed, PayStatus.failed, PayStatus.refunded]
  | PayStatus.completed => [PayStatus.refunded]
  | PayStatus.failed => []
  | PayStatus.refunded => []

/-- The status-transition guard of `update_payment` (main.py:201-217): a
requested status already validated to one of the four values is applied
when the transition is allowed; a request equal to the current status is a
permitted no-op; anything else is a 400 error naming the from/to pair and
the stored status is left unchanged. -/
def update_payment_status (current requested : PayStatus) : Except String PayStatus :=
  if requested ∈ allowed_transitions current then Except.ok requested
  else if requested ≠ current then
    Except.error ("invalid status transition from " ++ current.toStr ++ " to " ++ requested.toStr)
  else Except.ok requested

/-- Python's builtin `round` on an exact rational: round half to even. -/
def pyRound (x : ℚ) : ℤ :=
  let f := ⌊x⌋
  let frac := x - f
  if frac < 1 / 2 then f
  else if 1 / 2 < frac then f + 1
  else if f % 2 = 0 then f else f + 1

/-- Model of `PaymentCreate.check_amount_precision` (main.py:63-71): the amount
multiplied by 100 must be within `1e-6` of its rounded cent value. -/
def check_amount_precision (amount : ℚ) : Bool :=
  |amount * 100 - (pyRound (amount * 100) : ℚ)| ≤ 1 / 1000000

/-- Model of `create_payment` (main.py:120-144) restricted to the amount field: the
request-model constraint `gt=0` and the precision validator run first; on
success the record stores `int(round(amount * 100))` cents. -/
def create_payment (amount : ℚ) : Except String ℤ :=
  if ¬ 0 < amount then Except.error "amount must be greater than 0"
  else if ¬ check_amount_precision amount then
    Except.error "amount must have at most 2 decimal places"
  else Except.ok (pyRound (amount * 100))

/-- Reading a record back returns `amount_cents / 100.0` (main.py:138). -/
def read_amount (cents : ℤ) : ℚ := (cents : ℚ) / 100

/-- The columns of a stored payment row that `list_payments` looks at,
plus an identifier to tell rows apart. -/
structure PaymentRow where
  id : ℕ
  status : String
  created_at : ℤ
deriving DecidableEq, Repr

/-- The creation-time-descending ordering used by the
`order_by(PaymentORM.created_at.desc())` clause of main.py:175: `a`
comes no later than `b` when `a` is at least as new. -/
def rowGE (a b : PaymentRow) : Prop := b.created_at ≤ a.created_at

instance : DecidableRel rowGE :=
  fun a b => inferInstanceAs (Decidable (b.created_at ≤ a.created_at))

instance : IsTotal PaymentRow rowGE := ⟨fun a b => le_total b.created_at a.created_at⟩

instance : IsTrans PaymentRow rowGE := ⟨fun _ _ _ h1 h2 => le_trans h2 h1⟩

/-- Model of `list_payments` (main.py:165-188): when the status filter is a
non-empty string, keep only rows whose stored status equals the
lowercased filter; order by creation time descending; skip `offset` rows
and return at most `limit` rows (SQL `LIMIT`/`OFFSET`). -/
def list_payments (db : List PaymentRow) (statusFilter : String) (limit offset : ℕ) :
    List PaymentRow :=
  let rows := if statusFilter ≠ "" then
      db.filter (fun r => r.status = statusFilter.toLower)
    else db
  ((List.insertionSort rowGE rows).drop offset).take limit

/-- The number of rows of `l` strictly newer than `r`: the rank of `r`
in the creation-time-descending ordering of `l` (0 = newest). -/
def rankIn (l : List PaymentRow) (r : PaymentRow) : ℕ :=
  l.countP (fun x => r.created_at < x.created_at)

/-! ## Webhook ingestion router — `app/routers/webhooks.py` -/

/-- Digits of a decimal literal folded into a natural number. -/
def digitsToNat (l : List Char) : ℕ :=
  l.foldl (fun n c => n * 10 + (c.toNat - 48)) 0

/-- Python's `int(str)` on an already-stripped string: an optional sign
followed by at least one decimal digit (digit-group underscores, which
never occur in a numeric timestamp field, are not modelled). -/
def pyParseInt (s : String) : Option ℤ :=
  match s.toList with
  | [] => none
  | '-' :: rest =>
      if rest ≠ [] ∧ rest.all Char.isDigit then some (-(digitsToNat rest : ℤ)) else none
  | '+' :: rest =>
      if rest ≠ [] ∧ rest.all Char.isDigit then some ((digitsToNat rest : ℤ)) else none
  | l => if l.all Char.isDigit then some ((digitsToNat l : ℤ)) else none

/-- Python's `p.split("=", 1)` guarded by `"=" in p`, with both halves
stripped: `none` when `p` contains no `=`. -/
def splitFirstEq (p : String) : Option (String × String) :=
  match p.splitOn "=" with
  | [] => none
  | [_] => none
  | k :: rest => some (k.trim, (String.intercalate "=" rest).trim)

/-- Dict insertion: a later binding for the same key overwrites. -/
def insertKV (out : List (String × String)) (k v : String) : List (String × String) :=
  out.filter (fun x => x.1 ≠ k) ++ [(k, v)]

/-- Model of `_parse_stripe_signature_header` (webhooks.py:19-31): `none` on an
empty header, otherwise the dict built from the comma-separated
`key=value` parts (parts without `=` are skipped). -/
def parse_stripe_signature_header (h : String) : Option (List (String × String)) :=
  if h = "" then none
  else some ((h.splitOn ",").foldl
    (fun out p =>
      match splitFirstEq p with
      | some kv => insertKV out kv.1 kv.2
      | none => out) [])

/-- Dict lookup. -/
def lookupKey (d : List (String × String)) (k : String) : Option String :=
  (d.find? (fun x => x.1 = k)).map Prod.snd

/-- Model of `_verify_stripe_signature` (webhooks.py:44-67), with the HMAC-SHA256
hex digest abstracted as `hmacHex secret message`.  `now` is the value of
`time.time()` and `tolerance` the configured timestamp tolerance. -/
def verify_stripe_signature (hmacHex : String → String → String) (now : ℚ) (tolerance : ℤ)
    (payload : String) (headerValue : String) (secret : String) : Bool :=
  if secret = "" then true
  else
    match parse_stripe_signature_header headerValue with
    | none => false
    | some parsed =>
      if parsed = [] then false
      else
        match lookupKey parsed "t", lookupKey parsed "v1" with
        | some ts, some v1 =>
          match pyParseInt ts with
          | none => false
          | some timestamp =>
            if (tolerance : ℚ) < |now - (timestamp : ℚ)| then false
            else decide (hmacHex secret (toString timestamp ++ "." ++ payload) = v1)
        | _, _ => false

/-- Model of `_verify_hmac_signature` (webhooks.py:34-41): false when the secret or
the submitted signature is empty, otherwise a constant-time comparison of
the hex digest of the payload against the signature. -/
def verify_hmac_signature (hmacHex : String → String → String)
    (payload signature secret : String) : Bool :=
  if secret = "" ∨ signature = "" then false
  else decide (hmacHex secret payload = signature)

/-- Model of `stripe_webhook` (webhooks.py:120-144): when a signing secret is
configured a failed verification is a 400 `Invalid signature`; then the
body must parse as JSON (`jsonOk` abstracts `request.json()` succeeding);
on acceptance the endpoint replies `{received: true}`, modelled as
`Except.ok ()`. -/
def stripe_webhook (hmacHex : String → String → String) (jsonOk : String → Bool)
    (now : ℚ) (tolerance : ℤ) (secret : String) (header : Option String) (body : String) :
    Except String Unit :=
  if secret ≠ "" ∧ verify_stripe_signature hmacHex now tolerance body (header.getD "") secret = false then
    Except.error "Invalid signature"
  else if jsonOk body = false then Except.error "Invalid JSON"
  else Except.ok ()

/-- Model of `generic_webhook` (webhooks.py:147-168): when the generic secret is
configured a failed HMAC verification of the raw body against the
`X-Signature` header (absent header ↦ `""`) is a 400 `Invalid signature`;
then the body must parse as JSON. -/
def generic_webhook (hmacHex : String → String → String) (jsonOk : String → Bool)
    (secret : String) (signature : Option String) (body : String) : Except String Unit :=
  if secret ≠ "" ∧ verify_hmac_signature hmacHex body (signature.getD "") secret = false then
    Except.error "Invalid signature"
  else if jsonOk body = false then Except.error "Invalid JSON"
  else Except.ok ()

/-- Acceptance condition of the Stripe webhook in the words of the claim
(spec side of the refinement, to be compared with the code model
`stripe_webhook`): the body parses as JSON and, when a signing secret is
configured, the header yields pairs with a numeric `t` and a `v1`,
`|now - t|` is within the tolerance, and `v1` equals the hex digest of
`"{t}.{body}"` under the secret. -/
def stripeAcceptSpec (hmacHex : String → String → String) (jsonOk : String → Bool)
    (now : ℚ) (tolerance : ℤ) (secret : String) (header : Option String) (body : String) : Bool :=
  jsonOk body &&
    (secret == "" ||
      (let d := (parse_stripe_signature_header (header.getD "")).getD []
       match lookupKey d "t", lookupKey d "v1" with
       | some ts, some v1 =>
         match pyParseInt ts with
         | some t =>
             decide (|now - (t : ℚ)| ≤ (tolerance : ℚ)) &&
               (v1 == hmacHex secret (toString t ++ "." ++ body))
         | none => false
       | _, _ => false))

/-! ## Gateway order router and service wrapper —
`app/routers/payments.py`, `app/services/razorpay_service.py` -/

/-- Response model of the verify-payment endpoint (payments.py:81-83). -/
structure VerifyPaymentResponse where
  valid : Bool
  reason : Option String
deriving DecidableEq, Repr

/-- Model of `verify_payment` (payments.py:118-136): a 500 configuration error when
no gateway secret is configured; otherwise the hex HMAC-SHA256 digest of
`"{order_id}|{payment_id}"` under the secret is compared (constant time)
to the submitted signature, reporting `{valid: true}` or
`{valid: false, reason: "signature_mismatch"}`. -/
def verify_payment (hmacHex : String → String → String) (keySecret : String)
    (order_id payment_id signature : String) : Except String VerifyPaymentResponse :=
  if keySecret = "" then Except.error "Razorpay secret not configured"
  else
    let computed := hmacHex keySecret (order_id ++ "|" ++ payment_id)
    if computed = signature then Except.ok ⟨true, none⟩
    else Except.ok ⟨false, some "signature_mismatch"⟩

/-- Model of `RazorpayService.verify_payment_signature`
(razorpay_service.py:133-144): recompute the digest of
`"{order_id}|{payment_id}"` and compare in constant time. -/
def verify_payment_signature (hmacHex : String → String → String)
    (key_secret order_id payment_id signature : String) : Bool :=
  decide (hmacHex key_secret (order_id ++ "|" ++ payment_id) = signature)

/-! ## Theorems -/

/-- The status transition table as the specification lists it:
`pending→completed`, `pending→failed`, `pending→refunded`,
`completed→refunded`. -/
def specTransitionTable : List (PayStatus × PayStatus) :=
  [(PayStatus.pending, PayStatus.completed), (PayStatus.pending, PayStatus.failed),
   (PayStatus.pending, PayStatus.refunded), (PayStatus.completed, PayStatus.refunded)]

/-- C2: for every current status and requested status among the four
values, the update succeeds exactly when the pair is in the transition
table or the request is a no-op (requested = current); every other pair
produces the invalid-transition error naming the from/to states. -/
theorem update_payment_transition_table (current requested : PayStatus) :
    ((update_payment_status current requested).isOk = true ↔
      ((current, requested) ∈ specTransitionTable ∨ requested = current)) ∧
    ((current, requested) ∉ specTransitionTable → requested ≠ current →
      update_payment_status current requested =
        Except.error
          ("invalid status transition from " ++ current.toStr ++ " to " ++ requested.toStr)) := by
  cases current <;> cases requested <;>
    simp [update_payment_status, specTransitionTable, allowed_transitions, PayStatus.toStr,
      Except.isOk, Except.toBool]

/-- Closed instance of the transition-table theorem at the rejected pair
`completed → pending`. -/
theorem update_payment_transition_table_witness :
    (((update_payment_status PayStatus.completed PayStatus.pending).isOk = true ↔
      ((PayStatus.completed, PayStatus.pending) ∈ specTransitionTable ∨
        PayStatus.pending = PayStatus.completed)) ∧
    ((PayStatus.completed, PayStatus.pending) ∉ specTransitionTable →
      PayStatus.pending ≠ PayStatus.completed →
      update_payment_status PayStatus.completed PayStatus.pending =
        Except.error
          ("invalid status transition from " ++ PayStatus.completed.toStr ++ " to " ++
            PayStatus.pending.toStr))) :=
  update_payment_transition_table PayStatus.completed PayStatus.pending

/-- C9: the insufficient-funds check is strict (`a.balance < amount`),
so a debit of any amount with `0 ≤ amount ≤ balance` succeeds and
returns `balance - amount`; debiting the exact balance leaves zero; a
zero credit and a zero debit are accepted as no-ops. -/
theorem debit_strict_boundary (b a : ℚ) (h0 : 0 ≤ a) (h1 : a ≤ b) :
    debit b a = Except.ok (b - a) ∧ debit b b = Except.ok 0 ∧
    credit b 0 = Except.ok b ∧ debit b 0 = Except.ok b := by
  have hb : 0 ≤ b := le_trans h0 h1
  refine ⟨?_, ?_, ?_, ?_⟩
  · simp [debit, not_lt.2 h0, not_lt.2 h1]
  · simp [debit, not_lt.2 hb]
  · simp [credit]
  · simp [debit, not_lt.2 hb]

/-- Closed instance of the strict-boundary theorem at balance 5,
amount 3. -/
theorem debit_strict_boundary_witness :
    debit 5 3 = Except.ok (5 - 3) ∧ debit 5 5 = Except.ok 0 ∧
    credit 5 0 = Except.ok 5 ∧ debit 5 0 = Except.ok 5 :=
  debit_strict_boundary 5 3 (by norm_num) (by norm_num)

/-- C8: the exclusive row lock taken by `Account.debit` makes each debit
an atomic check-then-update, so two concurrent debits execute in one of
the two serial orders.  Whenever each amount alone fits the balance but
the two together exceed it, both serial orders give exactly one success
and one insufficient-funds failure — never two successes. -/
theorem concurrent_debits_one_success (b a1 a2 : ℚ)
    (h1 : a1 ≤ b) (h2 : a2 ≤ b) (h3 : b < a1 + a2) (h4 : 0 ≤ a1) (h5 : 0 ≤ a2) :
    (debit b a1 = Except.ok (b - a1) ∧
      debit (b - a1) a2 = Except.error "insufficient funds") ∧
    (debit b a2 = Except.ok (b - a2) ∧
      debit (b - a2) a1 = Except.error "insufficient funds") := by
  have hlt1 : b - a1 < a2 := by linarith
  have hlt2 : b - a2 < a1 := by linarith
  refine ⟨⟨?_, ?_⟩, ⟨?_, ?_⟩⟩
  · simp [debit, not_lt.2 h4, not_lt.2 h1]
  · simp [debit, not_lt.2 h5, hlt1]
  · simp [debit, not_lt.2 h5, not_lt.2 h2]
  · simp [debit, not_lt.2 h4, hlt2]

/-- Closed instance of the concurrent-debit theorem at balance 100 and
two debits of 60: in both serial orders the first succeeds and the
second fails with insufficient funds. -/
theorem concurrent_debits_one_success_witness :
    (debit 100 60 = Except.ok (100 - 60) ∧
      debit (100 - 60) 60 = Except.error "insufficient funds") ∧
    (debit 100 60 = Except.ok (100 - 60) ∧
      debit (100 - 60) 60 = Except.error "insufficient funds") :=
  concurrent_debits_one_success 100 60 60 (by norm_num) (by norm_num) (by norm_num)
    (by norm_num) (by norm_num)

/-- C10: with the generic webhook secret configured, a request with the
`X-Signature` header absent or empty is always rejected with the 400
`Invalid signature` error, for every body and every digest function,
because `_verify_hmac_signature` returns false on an empty submitted
signature. -/
theorem generic_webhook_missing_signature (hmacHex : String → String → String)
    (jsonOk : String → Bool) (secret : String) (h : secret ≠ "") (body : String) :
    generic_webhook hmacHex jsonOk secret none body = Except.error "Invalid signature" ∧
    generic_webhook hmacHex jsonOk secret (some "") body =
      Except.error "Invalid signature" := by
  constructor <;> simp [generic_webhook, verify_hmac_signature, h]

/-- Closed instance of the missing-signature theorem at secret `"sec"`. -/
theorem generic_webhook_missing_signature_witness :
    generic_webhook (fun s m => s ++ ":" ++ m) (fun _ => true) "sec" none "body" =
      Except.error "Invalid signature" ∧
    generic_webhook (fun s m => s ++ ":" ++ m) (fun _ => true) "sec" (some "") "body" =
      Except.error "Invalid signature" :=
  generic_webhook_missing_signature (fun s m => s ++ ":" ++ m) (fun _ => true) "sec"
    (by decide) "body"

/-- C6: with a gateway secret configured, the verify-payment endpoint
reports `{valid: true}` exactly when the submitted signature equals the
digest of `"{order_id}|{payment_id}"` under the secret, and
`{valid: false, reason: "signature_mismatch"}` for every other
signature; with no secret it fails with the 500 configuration error.
The service wrapper's `verify_payment_signature` decides the same
equality. -/
theorem verify_payment_characterization (hmacHex : String → String → String)
    (secret order_id payment_id signature : String) :
    (verify_payment hmacHex secret order_id payment_id signature =
        Except.ok ⟨true, none⟩ ↔
      secret ≠ "" ∧ signature = hmacHex secret (order_id ++ "|" ++ payment_id)) ∧
    (verify_payment hmacHex secret order_id payment_id signature =
        Except.ok ⟨false, some "signature_mismatch"⟩ ↔
      secret ≠ "" ∧ signature ≠ hmacHex secret (order_id ++ "|" ++ payment_id)) ∧
    (verify_payment hmacHex secret order_id payment_id signature =
        Except.error "Razorpay secret not configured" ↔ secret = "") ∧
    (verify_payment_signature hmacHex secret order_id payment_id signature = true ↔
      signature = hmacHex secret (order_id ++ "|" ++ payment_id)) := by
  by_cases hs : secret = "" <;>
    by_cases hc : hmacHex secret (order_id ++ "|" ++ payment_id) = signature <;>
      simp [verify_payment, verify_payment_signature, hs, hc, eq_comm] <;>
      exact fun h => hc h.symm

/-- Closed instance of the verify-payment characterization at a matching
and at a mismatching signature under the digest function
`fun s m => s ++ ":" ++ m`. -/
theorem verify_payment_characterization_witness :
    ((verify_payment (fun s m => s ++ ":" ++ m) "sec" "order_1" "pay_1" "bad" =
        Except.ok ⟨true, none⟩ ↔
      "sec" ≠ "" ∧ "bad" = (fun s m => s ++ ":" ++ m) "sec" ("order_1" ++ "|" ++ "pay_1")) ∧
    (verify_payment (fun s m => s ++ ":" ++ m) "sec" "order_1" "pay_1" "bad" =
        Except.ok ⟨false, some "signature_mismatch"⟩ ↔
      "sec" ≠ "" ∧ "bad" ≠ (fun s m => s ++ ":" ++ m) "sec" ("order_1" ++ "|" ++ "pay_1")) ∧
    (verify_payment (fun s m => s ++ ":" ++ m) "sec" "order_1" "pay_1" "bad" =
        Except.error "Razorpay secret not configured" ↔ "sec" = "") ∧
    (verify_payment_signature (fun s m => s ++ ":" ++ m) "sec" "order_1" "pay_1" "bad" = true ↔
      "bad" = (fun s m => s ++ ":" ++ m) "sec" ("order_1" ++ "|" ++ "pay_1"))) :=
  verify_payment_characterization (fun s m => s ++ ":" ++ m) "sec" "order_1" "pay_1" "bad"

/-- One operation never drives a non-negative balance negative. -/
theorem applyOp_nonneg (b : ℚ) (hb : 0 ≤ b) (op : LedgerOp) : 0 ≤ applyOp b op := by
  cases op with
  | credit a =>
      by_cases ha : a < 0
      · simp [applyOp, credit, ha, hb]
      · push_neg at ha
        simp [applyOp, credit, not_lt.2 ha]
        positivity
  | debit a =>
      by_cases ha : a < 0
      · simp [applyOp, debit, ha, hb]
      · by_cases hba : b < a
        · simp [applyOp, debit, ha, hba, hb]
        · push_neg at ha hba
          simp [applyOp, debit, not_lt.2 ha, not_lt.2 hba]
          linarith

/-- A run of operations keeps a non-negative balance non-negative. -/
theorem runOps_nonneg (ops : List LedgerOp) : ∀ b : ℚ, 0 ≤ b → 0 ≤ runOps b ops := by
  induction ops with
  | nil => intro b hb; simpa [runOps] using hb
  | cons op rest ih =>
      intro b hb
      simpa [runOps] using ih (applyOp b op) (applyOp_nonneg b hb op)

/-- The balance after one operation is the balance before, plus the
successful credit amount, minus the successful debit amount. -/
theorem applyOp_accounting (b : ℚ) (op : LedgerOp) :
    applyOp b op =
      b + (match op with
           | LedgerOp.credit a => if (credit b a).isOk then a else 0
           | LedgerOp.debit _ => 0)
        - (match op with
           | LedgerOp.credit _ => 0
           | LedgerOp.debit a => if (debit b a).isOk then a else 0) := by
  cases op with
  | credit a =>
      by_cases ha : a < 0 <;>
        simp [applyOp, credit, ha, Except.isOk, Except.toBool]
  | debit a =>
      by_cases ha : a < 0
      · simp [applyOp, debit, ha, Except.isOk, Except.toBool]
      · by_cases hba : b < a <;>
          simp [applyOp, debit, ha, hba, Except.isOk, Except.toBool]


/-- The final balance of a run equals the initial balance plus all
successful credits minus all successful debits. -/
theorem runOps_accounting (ops : List LedgerOp) :
    ∀ b : ℚ, runOps b ops = b + creditSum b ops - debitSum b ops := by
  induction ops with
  | nil => intro b; simp [runOps, creditSum, debitSum]
  | cons op rest ih =>
      intro b
      cases op with
      | credit a =>
          rw [show runOps b (LedgerOp.credit a :: rest) = runOps (applyOp b (LedgerOp.credit a)) rest from rfl]
          rw [ih (applyOp b (LedgerOp.credit a))]
          simp only [creditSum, debitSum]
          rw [show applyOp b (LedgerOp.credit a) =
            b + (if (credit b a).isOk then a else 0) from by
              simpa using applyOp_accounting b (LedgerOp.credit a)]
          ring
      | debit a =>
          rw [show runOps b (LedgerOp.debit a :: rest) = runOps (applyOp b (LedgerOp.debit a)) rest from rfl]
          rw [ih (applyOp b (LedgerOp.debit a))]
          simp only [creditSum, debitSum]
          rw [show applyOp b (LedgerOp.debit a) =
            b - (if (debit b a).isOk then a else 0) from by
              simpa using applyOp_accounting b (LedgerOp.debit a)]
          ring

/-- C3: starting from a non-negative balance, the stored balance stays
non-negative after every step of any credit/debit sequence; the final
balance equals the initial balance plus the sum of successful credits
minus the sum of successful debits; negative amounts are rejected by
both operations with a validation error; and a debit exceeding the
current balance fails with the insufficient-funds error leaving the
balance unchanged. -/
theorem ledger_balance_accounting (b : ℚ) (ops : List LedgerOp) (n : ℕ) (a : ℚ)
    (hb : 0 ≤ b) :
    0 ≤ runOps b (ops.take n) ∧
    runOps b ops = b + creditSum b ops - debitSum b ops ∧
    (a < 0 → credit b a = Except.error "credit amount must be non-negative" ∧
             debit b a = Except.error "debit amount must be non-negative") ∧
    (b < a → debit b a = Except.error "insufficient funds" ∧
             applyOp b (LedgerOp.debit a) = b) := by
  refine ⟨runOps_nonneg (ops.take n) b hb, runOps_accounting ops b, ?_, ?_⟩
  · intro ha
    constructor <;> simp [credit, debit, ha]
  · intro hba
    have ha : ¬ a < 0 := by linarith
    constructor <;> simp [applyOp, debit, ha, hba]

/-- Closed instance of the accounting theorem at balance 100 and the
sequence credit 50, debit 30, debit 1000 (the last one failing). -/
theorem ledger_balance_accounting_witness :
    0 ≤ runOps 100 ([LedgerOp.credit 50, LedgerOp.debit 30, LedgerOp.debit 1000].take 2) ∧
    runOps 100 [LedgerOp.credit 50, LedgerOp.debit 30, LedgerOp.debit 1000] =
      100 + creditSum 100 [LedgerOp.credit 50, LedgerOp.debit 30, LedgerOp.debit 1000]
        - debitSum 100 [LedgerOp.credit 50, LedgerOp.debit 30, LedgerOp.debit 1000] ∧
    ((-7 : ℚ) < 0 → credit 100 (-7) = Except.error "credit amount must be non-negative" ∧
             debit 100 (-7) = Except.error "debit amount must be non-negative") ∧
    ((100 : ℚ) < -7 → debit 100 (-7) = Except.error "insufficient funds" ∧
             applyOp 100 (LedgerOp.debit (-7)) = 100) :=
  ledger_balance_accounting 100 [LedgerOp.credit 50, LedgerOp.debit 30, LedgerOp.debit 1000]
    2 (-7) (by norm_num)

/-- A refund of 60 being processed on a COMPLETED transaction of amount
100 that also carries a second, not-yet-processed refund row of 60. -/
def refundCeState : RefundProcState :=
  { txAmount := 100, txStatus := TxStatus.COMPLETED, fromBalance := some 0,
    toBalance := some 200, refAmount := 60, refProcessed := false,
    otherRefunds := [⟨60, false⟩] }

/-- C1 fails as stated: on `refundCeState` every hypothesis of the claim
holds (transaction COMPLETED, both accounts present, refund source
balance 200 ≥ 60), the sum of the processed refunds after processing is
only 60 < 100, yet `Refund.process` marks the transaction REFUNDED —
because models.py:218 sums `tx.refunds.all()`, processed or not. -/
theorem refund_process_processed_sum_counterexample :
    refundCeState.txStatus = TxStatus.COMPLETED ∧
    refundCeState.fromBalance = some 0 ∧
    refundCeState.toBalance = some 200 ∧
    refundCeState.refAmount ≤ 200 ∧
    processedSumAfter refundCeState < refundCeState.txAmount ∧
    refundProcess refundCeState =
      Except.ok { txAmount := 100, txStatus := TxStatus.REFUNDED, fromBalance := some 60,
                  toBalance := some 140, refAmount := 60, refProcessed := true,
                  otherRefunds := [⟨60, false⟩] } := by
  refine ⟨rfl, rfl, rfl, by norm_num [refundCeState], ?_, ?_⟩
  · norm_num [refundCeState, processedSumAfter, List.filter]
  · norm_num [refundCeState, refundProcess, totalRefundSum]

/-- C1 amended: under the claim's hypotheses, `Refund.process` succeeds,
moves the refund amount from the `to_account` back to the
`from_account`, stamps the refund processed, and marks the transaction
REFUNDED exactly when the sum of the amounts of all refunds recorded on
the transaction — processed or not, the current one included — reaches
or exceeds the transaction amount; otherwise the transaction stays
COMPLETED. -/
theorem refund_process_marks_refunded (s : RefundProcState) (d b : ℚ)
    (h1 : s.txStatus = TxStatus.COMPLETED)
    (h2 : s.fromBalance = some d) (h3 : s.toBalance = some b)
    (h4 : s.refAmount ≤ b) :
    refundProcess s =
      Except.ok { s with
                  toBalance := some (b - s.refAmount),
                  fromBalance := some (d + s.refAmount),
                  refProcessed := true,
                  txStatus :=
                    if s.txAmount ≤ totalRefundSum s then TxStatus.REFUNDED
                    else TxStatus.COMPLETED } := by
  simp [refundProcess, h1, h2, h3, not_lt.2 h4]

/-- Closed instance of the amended refund theorem at `refundCeState`. -/
theorem refund_process_marks_refunded_witness :
    refundProcess refundCeState =
      Except.ok { refundCeState with
                  toBalance := some (200 - refundCeState.refAmount),
                  fromBalance := some (0 + refundCeState.refAmount),
                  refProcessed := true,
                  txStatus :=
                    if refundCeState.txAmount ≤ totalRefundSum refundCeState then
                      TxStatus.REFUNDED
                    else TxStatus.COMPLETED } :=
  refund_process_marks_refunded refundCeState 0 200 rfl rfl rfl (by norm_num [refundCeState])

/-- An amount of 12 + 10⁻⁹: it passes the `1e-6` precision tolerance of
`check_amount_precision` yet is not an exact multiple of a cent. -/
def nearMissAmount : ℚ := 12000000001 / 1000000000

/-- C4 fails as stated: `nearMissAmount` is positive and satisfies the
precision rule (`|amount·100 − round(amount·100)| = 10⁻⁷ ≤ 10⁻⁶`), so
creation succeeds storing 1200 cents, but reading back gives 12, not the
amount that was submitted — the round-trip is not lossless for every
accepted amount. -/
theorem create_payment_tolerance_counterexample :
    0 < nearMissAmount ∧ check_amount_precision nearMissAmount = true ∧
    create_payment nearMissAmount = Except.ok 1200 ∧
    read_amount 1200 ≠ nearMissAmount := by
  have hpy : pyRound ((12000000001 : ℚ) / 10000000) = 1200 := by
    norm_num [pyRound]
  have hchk : check_amount_precision ((12000000001 : ℚ) / 1000000000) = true := by
    norm_num [check_amount_precision, hpy, abs_le]
  refine ⟨by norm_num [nearMissAmount], ?_, ?_, ?_⟩
  · rw [nearMissAmount]; exact hchk
  · rw [nearMissAmount]
    norm_num [create_payment, hchk, hpy]
  · norm_num [read_amount, nearMissAmount]

/-- Python `round` is the identity on integer rationals. -/
theorem pyRound_intCast (n : ℤ) : pyRound (n : ℚ) = n := by
  simp [pyRound]

/-- C4 amended: for every positive amount that is an exact multiple of a
cent (`amount·100` an integer `n`), creation passes the precision check,
stores exactly `n` cents, and reading back returns the amount unchanged;
amounts inside the `1e-6` tolerance but off a cent are accepted and read
back as the rounded cent value; an amount violating the tolerance such
as `12.345` is rejected with the precision validation error and nothing
is stored. -/
theorem create_payment_roundtrip (a : ℚ) (n : ℤ) (h1 : 0 < a) (h2 : a * 100 = (n : ℚ)) :
    check_amount_precision a = true ∧
    create_payment a = Except.ok n ∧
    read_amount n = a ∧
    create_payment (12345 / 1000) =
      Except.error "amount must have at most 2 decimal places" := by
  have hchk : check_amount_precision a = true := by
    simp [check_amount_precision, h2, pyRound_intCast]
  have h12345 : create_payment (12345 / 1000) =
      Except.error "amount must have at most 2 decimal places" := by
    have hpy : pyRound ((2469 : ℚ) / 2) = 1234 := by
      norm_num [pyRound]
    have hchk2 : check_amount_precision ((2469 : ℚ) / 200) = false := by
      norm_num [check_amount_precision, hpy, lt_abs]
    norm_num [create_payment, hchk2]
  refine ⟨hchk, ?_, ?_, h12345⟩
  · simp [create_payment, h1, hchk, h2, pyRound_intCast]
  · rw [read_amount, ← h2]
    field_simp

/-- Closed instance of the round-trip theorem at amount 12.34 (1234
cents). -/
theorem create_payment_roundtrip_witness :
    check_amount_precision (617 / 50) = true ∧
    create_payment (617 / 50) = Except.ok 1234 ∧
    read_amount 1234 = 617 / 50 ∧
    create_payment (12345 / 1000) =
      Except.error "amount must have at most 2 decimal places" :=
  create_payment_roundtrip (617 / 50) 1234 (by norm_num) (by norm_num)

/-- With a secret configured, the code's verification agrees with the
claim's acceptance condition on the signature part. -/
theorem verify_stripe_eq_spec (hmacHex : String → String → String)
    (now : ℚ) (tolerance : ℤ) (body hdr secret : String) (hs : secret ≠ "") :
    verify_stripe_signature hmacHex now tolerance body hdr secret =
      (let d := (parse_stripe_signature_header hdr).getD []
       match lookupKey d "t", lookupKey d "v1" with
       | some ts, some v1 =>
         match pyParseInt ts with
         | some t =>
             decide (|now - (t : ℚ)| ≤ (tolerance : ℚ)) &&
               (v1 == hmacHex secret (toString t ++ "." ++ body))
         | none => false
       | _, _ => false) := by
  cases hp : parse_stripe_signature_header hdr with
  | none => simp [verify_stripe_signature, hs, hp, lookupKey]
  | some parsed =>
      by_cases hpe : parsed = []
      · subst hpe
        simp [verify_stripe_signature, hs, hp, lookupKey]
      · cases ht : lookupKey parsed "t" with
        | none => simp [verify_stripe_signature, hs, hp, hpe, ht]
        | some ts =>
            cases hv : lookupKey parsed "v1" with
            | none => simp [verify_stripe_signature, hs, hp, hpe, ht, hv]
            | some v1 =>
                cases hi : pyParseInt ts with
                | none => simp [verify_stripe_signature, hs, hp, hpe, ht, hv, hi]
                | some timestamp =>
                    have hlhs : verify_stripe_signature hmacHex now tolerance body hdr secret =
                        (if (tolerance : ℚ) < |now - (timestamp : ℚ)| then false
                         else decide (hmacHex secret (toString timestamp ++ "." ++ body) = v1)) := by
                      simp [verify_stripe_signature, hs, hp, hpe, ht, hv, hi]
                    rw [hlhs]
                    simp only [Option.getD_some, ht, hv, hi]
                    by_cases htol : (tolerance : ℚ) < |now - (timestamp : ℚ)|
                    · simp [htol, not_le.2 htol]
                    · have hd : decide (|now - (timestamp : ℚ)| ≤ (tolerance : ℚ)) = true :=
                        decide_eq_true (not_lt.1 htol)
                      rw [if_neg htol, hd, Bool.true_and, Bool.eq_iff_iff]
                      simp only [decide_eq_true_eq, beq_iff_eq]
                      exact eq_comm

/-- C5: the Stripe-style webhook endpoint replies `{received: true}`
exactly when the body parses as JSON and — whenever a signing secret is
configured — the `Stripe-Signature` header parses to key=value pairs
with a numeric `t` and a `v1`, the timestamp is within the tolerance of
the current time, and `v1` equals the digest of `"{t}.{body}"` under the
secret; with no secret configured any JSON body is accepted regardless
of the header.  `stripeAcceptSpec` is that condition, written from the
claim. -/
theorem stripe_webhook_acceptance (hmacHex : String → String → String)
    (jsonOk : String → Bool) (now : ℚ) (tolerance : ℤ) (secret : String)
    (header : Option String) (body : String) :
    (stripe_webhook hmacHex jsonOk now tolerance secret header body = Except.ok () ↔
      stripeAcceptSpec hmacHex jsonOk now tolerance secret header body = true) := by
  by_cases hs : secret = ""
  · subst hs
    rw [stripe_webhook, stripeAcceptSpec]
    cases hj : jsonOk body <;> simp [hj]
  · rw [stripe_webhook, stripeAcceptSpec,
      verify_stripe_eq_spec hmacHex now tolerance body (header.getD "") secret hs]
    cases hj : jsonOk body <;>
      cases hv : (let d := (parse_stripe_signature_header (header.getD "")).getD []
       match lookupKey d "t", lookupKey d "v1" with
       | some ts, some v1 =>
         match pyParseInt ts with
         | some t =>
             decide (|now - (t : ℚ)| ≤ (tolerance : ℚ)) &&
               (v1 == hmacHex secret (toString t ++ "." ++ body))
         | none => false
       | _, _ => false) <;>
      simp [hj, hv, hs]

/-- Closed instance of the webhook-acceptance theorem at a concrete
header, body and digest function. -/
theorem stripe_webhook_acceptance_witness :
    (stripe_webhook (fun s m => s ++ ":" ++ m) (fun _ => true) 1000 300 "sec"
        (some "t=1000,v1=sec:1000.body") "body" = Except.ok () ↔
      stripeAcceptSpec (fun s m => s ++ ":" ++ m) (fun _ => true) 1000 300 "sec"
        (some "t=1000,v1=sec:1000.body") "body" = true) :=
  stripe_webhook_acceptance (fun s m => s ++ ":" ++ m) (fun _ => true) 1000 300 "sec"
    (some "t=1000,v1=sec:1000.body") "body"

/-- Prepending a row changes the rank of `r` by its key comparison. -/
theorem rankIn_cons (a r : PaymentRow) (l : List PaymentRow) :
    rankIn (a :: l) r = rankIn l r + if r.created_at < a.created_at then 1 else 0 := by
  simp [rankIn, List.countP_cons]

/-- In a list sorted newest-first with pairwise-distinct creation times,
an element lies in the window `drop off |>.take lim` exactly when its
rank is in `[off, off + lim)`. -/
theorem mem_drop_take_sorted :
    ∀ L : List PaymentRow, L.Pairwise rowGE → (L.map PaymentRow.created_at).Nodup →
    ∀ (off lim : ℕ) (r : PaymentRow),
      (r ∈ (L.drop off).take lim ↔
        r ∈ L ∧ off ≤ rankIn L r ∧ rankIn L r < off + lim) := by
  intro L
  induction L with
  | nil => intro _ _ off lim r; simp
  | cons a rest ih =>
      intro hs hnd off lim r
      obtain ⟨ha, hrest⟩ := List.pairwise_cons.1 hs
      have hnd2 : (∀ x ∈ rest, ¬x.created_at = a.created_at) ∧
          (rest.map PaymentRow.created_at).Nodup := by simpa using hnd
      have hknd : (rest.map PaymentRow.created_at).Nodup := hnd2.2
      have hstrict : ∀ x ∈ rest, x.created_at < a.created_at := by
        intro x hx
        rcases lt_or_eq_of_le (ha x hx) with h | h
        · exact h
        · exact absurd h (hnd2.1 x hx)
      have hrank_a : rankIn (a :: rest) a = 0 := by
        simp only [rankIn, List.countP_cons]
        have h0 : rest.countP (fun x => decide (a.created_at < x.created_at)) = 0 :=
          List.countP_eq_zero.2 (by
            intro x hx
            simpa using not_lt.2 (le_of_lt (hstrict x hx)))
        simp [h0]
      have hrank_mem : ∀ x ∈ rest, rankIn (a :: rest) x = rankIn rest x + 1 := by
        intro x hx
        simp [rankIn_cons, hstrict x hx]
      cases off with
      | zero =>
          cases lim with
          | zero => simp
          | succ l =>
              rw [List.drop_zero, List.take_succ_cons]
              constructor
              · intro hmem
                rcases List.mem_cons.1 hmem with h | h
                · subst h
                  exact ⟨List.mem_cons_self _ _, Nat.zero_le _, by rw [hrank_a]; omega⟩
                · have h' := (ih hrest hknd 0 l r).1 (by simpa using h)
                  refine ⟨List.mem_cons_of_mem _ h'.1, Nat.zero_le _, ?_⟩
                  rw [hrank_mem r h'.1]
                  omega
              · rintro ⟨hmem, -, hlt⟩
                rcases List.mem_cons.1 hmem with h | h
                · subst h; exact List.mem_cons_self _ _
                · refine List.mem_cons_of_mem _ ?_
                  have : rankIn rest r < l := by
                    have := hrank_mem r h
                    omega
                  simpa using (ih hrest hknd 0 l r).2 ⟨h, Nat.zero_le _, by omega⟩
      | succ o =>
          rw [List.drop_succ_cons]
          rw [ih hrest hknd o lim r]
          constructor
          · rintro ⟨hmem, hle, hlt⟩
            refine ⟨List.mem_cons_of_mem _ hmem, ?_, ?_⟩
            · rw [hrank_mem r hmem]; omega
            · rw [hrank_mem r hmem]; omega
          · rintro ⟨hmem, hle, hlt⟩
            rcases List.mem_cons.1 hmem with h | h
            · subst h
              rw [hrank_a] at hle
              omega
            · refine ⟨h, ?_, ?_⟩
              · have := hrank_mem r h; omega
              · have := hrank_mem r h; omega

/-- C7: for every stored set of records with pairwise-distinct creation
times, every non-empty status filter and every limit in 1..100 and
offset ≥ 0, the listing returns exactly the records whose status equals
the lowercased filter and whose newest-first rank among the matching
records lies in `[offset, offset + limit)`; the result is ordered by
creation time descending and holds at most `limit` records. -/
theorem list_payments_characterization (db : List PaymentRow) (f : String)
    (limit offset : ℕ) (r : PaymentRow) (hf : f ≠ "") (hlim1 : 1 ≤ limit)
    (hlim2 : limit ≤ 100)
    (hnd : (db.map PaymentRow.created_at).Nodup) :
    (r ∈ list_payments db f limit offset ↔
       r ∈ db ∧ r.status = f.toLower ∧
       offset ≤ rankIn (db.filter (fun x => x.status = f.toLower)) r ∧
       rankIn (db.filter (fun x => x.status = f.toLower)) r < offset + limit) ∧
    (list_payments db f limit offset).Pairwise rowGE ∧
    (list_payments db f limit offset).length ≤ limit := by
  have hsub : List.Sublist (db.filter (fun x => x.status = f.toLower)) db :=
    List.filter_sublist db
  have hndf : ((db.filter (fun x => x.status = f.toLower)).map PaymentRow.created_at).Nodup :=
    List.Nodup.sublist (hsub.map PaymentRow.created_at) hnd
  have hperm : List.Perm (List.insertionSort rowGE (db.filter (fun x => x.status = f.toLower)))
      (db.filter (fun x => x.status = f.toLower)) :=
    List.perm_insertionSort rowGE _
  have hsorted : List.Pairwise rowGE
      (List.insertionSort rowGE (db.filter (fun x => x.status = f.toLower))) :=
    List.sorted_insertionSort rowGE _
  have hndL : ((List.insertionSort rowGE (db.filter (fun x => x.status = f.toLower))).map
      PaymentRow.created_at).Nodup :=
    (hperm.map PaymentRow.created_at).nodup_iff.2 hndf
  have hrank : rankIn (List.insertionSort rowGE (db.filter (fun x => x.status = f.toLower))) r =
      rankIn (db.filter (fun x => x.status = f.toLower)) r := by
    simpa [rankIn] using
      List.Perm.countP_eq (fun x => decide (r.created_at < x.created_at)) hperm
  have hlp : list_payments db f limit offset =
      ((List.insertionSort rowGE (db.filter (fun x => x.status = f.toLower))).drop
        offset).take limit := by
    simp [list_payments, hf]
  refine ⟨?_, ?_, ?_⟩
  · rw [hlp, mem_drop_take_sorted _ hsorted hndL offset limit r, hrank, hperm.mem_iff]
    simp [List.mem_filter, and_assoc]
  · rw [hlp]
    exact List.Pairwise.sublist ((List.take_sublist _ _).trans (List.drop_sublist _ _)) hsorted
  · rw [hlp]
    exact List.length_take_le _ _

/-- Closed instance of the listing theorem on five records: with
filter `"PENDING"`, limit 2 and offset 2, membership of the 3rd-newest
matching record is characterized by its rank. -/
theorem list_payments_characterization_witness :
    ((⟨5, "pending", 2⟩ : PaymentRow) ∈
        list_payments [⟨1, "pending", 5⟩, ⟨2, "pending", 3⟩, ⟨3, "completed", 4⟩,
          ⟨4, "pending", 1⟩, ⟨5, "pending", 2⟩] "PENDING" 2 2 ↔
       (⟨5, "pending", 2⟩ : PaymentRow) ∈
          [⟨1, "pending", 5⟩, ⟨2, "pending", 3⟩, ⟨3, "completed", 4⟩,
            ⟨4, "pending", 1⟩, ⟨5, "pending", 2⟩] ∧
       (⟨5, "pending", 2⟩ : PaymentRow).status = "PENDING".toLower ∧
       2 ≤ rankIn ([⟨1, "pending", 5⟩, ⟨2, "pending", 3⟩, ⟨3, "completed", 4⟩,
            ⟨4, "pending", 1⟩, ⟨5, "pending", 2⟩].filter
              (fun x => x.status = "PENDING".toLower)) ⟨5, "pending", 2⟩ ∧
       rankIn ([⟨1, "pending", 5⟩, ⟨2, "pending", 3⟩, ⟨3, "completed", 4⟩,
            ⟨4, "pending", 1⟩, ⟨5, "pending", 2⟩].filter
              (fun x => x.status = "PENDING".toLower)) ⟨5, "pending", 2⟩ < 2 + 2) ∧
    (list_payments [⟨1, "pending", 5⟩, ⟨2, "pending", 3⟩, ⟨3, "completed", 4⟩,
        ⟨4, "pending", 1⟩, ⟨5, "pending", 2⟩] "PENDING" 2 2).Pairwise rowGE ∧
    (list_payments [⟨1, "pending", 5⟩, ⟨2, "pending", 3⟩, ⟨3, "completed", 4⟩,
        ⟨4, "pending", 1⟩, ⟨5, "pending", 2⟩] "PENDING" 2 2).length ≤ 2 :=
  list_payments_characterization
    [⟨1, "pending", 5⟩, ⟨2, "pending", 3⟩, ⟨3, "completed", 4⟩,
      ⟨4, "pending", 1⟩, ⟨5, "pending", 2⟩] "PENDING" 2 2 ⟨5, "pending", 2⟩
    (by decide) (by decide) (by decide) (by decide)

end FastPay
